import Mathlib

/-!
Verification of the resource-acquisition and execution-context-bootstrap
sequence of the seL4 tutorial solution `solutions/hello-2-nolibs/src/main.c`.

The pure grant search `get_untyped` and the concrete constants (stack size,
alignment check, register initialisation) are embedded directly from the C
source.  The components the specification re-architects out of `main`'s
inline code and the kernel calls it performs (slot allocator, policy binder,
execution-context state machine) are modelled from the specification text;
each such definition is marked `Modelled from the spec`.
-/

namespace Sel4Tutorial

/-- Error kinds of the bootstrap design (spec section 7). -/
inductive BootError where
  | ExhaustedSlots
  | NoSuitableGrant
  | NoSchedulingControl
  | InvalidPolicy
  | AlreadyBound
  | ConfigurationFailed
  | MisalignedStack
  | ResumeFailed
  | AlreadyRunning
deriving DecidableEq, Repr

/-- The part of `seL4_BootInfo` that `main.c` reads: the untyped capability
range `untyped.start .. untyped.end` (exclusive), the per-untyped size
exponents `untypedList[idx].sizeBits`, and the free slot range `empty`. -/
structure BootInfo where
  untypedStart : Nat
  untypedEnd : Nat
  untypedList : List Nat
  emptyStart : Nat
  emptyEnd : Nat
deriving DecidableEq, Repr

/-- Well-formedness of the boot info as the kernel hands it over: the
size-bits array describes exactly the capabilities of the untyped range. -/
def BootInfo.wf (info : BootInfo) : Prop :=
  info.untypedList.length = info.untypedEnd - info.untypedStart

instance (info : BootInfo) : Decidable info.wf := by
  unfold BootInfo.wf; infer_instance

/-- Loop of `get_untyped` in `main.c`: iterate `i` from `untyped.start`
while `i < untyped.end`, stepping `idx` through `untypedList`, and return
the first `i` with `BIT(untypedList[idx].sizeBits) >= size_bytes`;
return `-1` when the loop finishes.  (`BIT(n)` is `1ul << n`.) -/
def get_untypedGo (i e : Nat) (sizes : List Nat) (size_bytes : Nat) : Int :=
  match sizes with
  | [] => -1
  | s :: rest =>
    if i < e then
      if size_bytes ≤ 2 ^ s then (i : Int)
      else get_untypedGo (i + 1) e rest size_bytes
    else -1

/-- Embedding of `get_untyped` from `main.c` lines 46-55: returns a cap to
an untyped with a size of at least `size_bytes`, or `-1` if none exists. -/
def get_untyped (info : BootInfo) (size_bytes : Nat) : Int :=
  get_untypedGo info.untypedStart info.untypedEnd info.untypedList size_bytes

/-- State-passing form of the `get_untyped` loop.  The C function receives
`info` by pointer, so each iteration threads the boot-info state; the loop
body of the source only reads it. -/
def get_untypedLoop (st : BootInfo) (i e : Nat) (sizes : List Nat)
    (size_bytes : Nat) : BootInfo × Int :=
  match sizes with
  | [] => (st, -1)
  | s :: rest =>
    if i < e then
      if size_bytes ≤ 2 ^ s then (st, (i : Int))
      else get_untypedLoop st (i + 1) e rest size_bytes
    else (st, -1)

/-- State-passing embedding of `get_untyped`: returns the (possibly
updated) boot info together with the chosen capability. -/
def get_untypedS (info : BootInfo) (size_bytes : Nat) : BootInfo × Int :=
  get_untypedLoop info info.untypedStart info.untypedEnd info.untypedList size_bytes

/-- Grant `idx` (zero-based position in the untyped list) satisfies the
size requirement. -/
def qualifies (info : BootInfo) (size_bytes idx : Nat) : Prop :=
  size_bytes ≤ 2 ^ info.untypedList.getD idx 0

instance (info : BootInfo) (s idx : Nat) : Decidable (qualifies info s idx) := by
  unfold qualifies; infer_instance

/-- Modelled from the spec: the free capability Slot Range (spec section
4.2), described by start and end (exclusive).  `main.c` keeps it inline as
`info->empty` and the pattern `tcb_cap = info->empty.start;
sc_cap = tcb_cap + 1`; no `next_slot` function exists in the source.
The field `stop` is the spec's `end` (a Lean keyword). -/
structure SlotRange where
  start : Nat
  stop : Nat
deriving DecidableEq, Repr

/-- Modelled from the spec: `next_slot()` returns the next unused
identifier from the free Slot Range and advances the range's start; fails
with `ExhaustedSlots` when start would reach end. -/
def next_slot (r : SlotRange) : Except BootError (Nat × SlotRange) :=
  if r.start < r.stop then .ok (r.start, ⟨r.start + 1, r.stop⟩)
  else .error .ExhaustedSlots

/-- Iterate `next_slot` `n` times, collecting the returned identifiers in
order; the whole run fails as soon as one call fails. -/
def runNext : Nat → SlotRange → Except BootError (List Nat × SlotRange)
  | 0, r => .ok ([], r)
  | n + 1, r =>
    match next_slot r with
    | .error e => .error e
    | .ok (id, r') =>
      match runNext n r' with
      | .error e => .error e
      | .ok (ids, r'') => .ok (id :: ids, r'')

/-- Modelled from the spec: a Scheduling Policy — period, budget (both in
microseconds, `10 * US_IN_MS = 10000` in the source call), and extra
refill count. -/
structure Policy where
  period : Int
  budget : Int
  extraRefills : Nat
deriving DecidableEq, Repr

/-- Modelled from the spec: `bind_policy(sc_handle, node, policy)` (spec
section 4.4).  The source performs it as
`seL4_SchedControl_Configure(sched_control, sc_cap, budget, period, 0)`;
the kernel side is not in the repository.  `control node` says whether a
scheduling-control authority exists for `node`; `bound` says whether the
scheduling context was already bound. -/
def bind_policy (control : Nat → Bool) (bound : Bool) (node : Nat)
    (p : Policy) : Except BootError Unit :=
  if ¬ control node then .error .NoSchedulingControl
  else if p.period ≤ 0 ∨ p.budget ≤ 0 ∨ p.budget > p.period then
    .error .InvalidPolicy
  else if bound then .error .AlreadyBound
  else .ok ()

/-- The register file of `seL4_UserContext` as listed in the source's TASK
4 comment (x86): `eip, esp, eflags, eax, ebx, ecx, edx, esi, edi, ebp,
tls_base, fs, gs`. -/
structure RegFile where
  eip : Nat
  esp : Nat
  eflags : Nat
  eax : Nat
  ebx : Nat
  ecx : Nat
  edx : Nat
  esi : Nat
  edi : Nat
  ebp : Nat
  tls_base : Nat
  fs : Nat
  gs : Nat
deriving DecidableEq, Repr

/-- The all-zero register file: the object-creation default. -/
def RegFile.zero : RegFile := ⟨0, 0, 0, 0, 0, 0, 0, 0, 0, 0, 0, 0, 0⟩

/-- Embedding of the designated initialiser in `main.c`:
`seL4_UserContext regs = { .eip = ..., .esp = ... };` — the two named
fields are set, every other field is zero-initialised. -/
def mkUserContext (ip sp : Nat) : RegFile :=
  { RegFile.zero with eip := ip, esp := sp }

/-- Modelled from the spec and the `seL4_TCB_WriteRegisters` call: the
kernel writes the first `count` registers of `src` (in declaration order:
instruction pointer first, stack pointer second, ...) into `dst` and
leaves the rest of `dst` unchanged. -/
def writeRegisters (count : Nat) (src dst : RegFile) : RegFile :=
  { eip := if 0 < count then src.eip else dst.eip
    esp := if 1 < count then src.esp else dst.esp
    eflags := if 2 < count then src.eflags else dst.eflags
    eax := if 3 < count then src.eax else dst.eax
    ebx := if 4 < count then src.ebx else dst.ebx
    ecx := if 5 < count then src.ecx else dst.ecx
    edx := if 6 < count then src.edx else dst.edx
    esi := if 7 < count then src.esi else dst.esi
    edi := if 8 < count then src.edi else dst.edi
    ebp := if 9 < count then src.ebp else dst.ebp
    tls_base := if 10 < count then src.tls_base else dst.tls_base
    fs := if 11 < count then src.fs else dst.fs
    gs := if 12 < count then src.gs else dst.gs }

/-- Run state of an Execution Context (spec section 4.5). -/
inductive RunState where
  | unconfigured
  | configured
  | runnable
deriving DecidableEq, Repr

/-- Modelled from the spec: an Execution Context — run state, whether
`load_registers` has succeeded, and the register file (all registers zero
at object creation). -/
structure ExecContext where
  state : RunState
  regsLoaded : Bool
  regs : RegFile
deriving DecidableEq, Repr

/-- A freshly constructed (retyped) thread object: unconfigured, no
registers loaded, register file at its creation default of zero. -/
def ExecContext.create : ExecContext := ⟨.unconfigured, false, RegFile.zero⟩

/-- Modelled from the spec: `configure(thread_handle, cspace_root,
vspace_root, sc_handle)` — fails with `ConfigurationFailed` if any
referenced root or scheduling-context handle is invalid (summarised by
`valid`); on success the context becomes `configured`.  The source
performs it as `seL4_TCB_Configure`. -/
def configure (valid : Bool) (ec : ExecContext) : Except BootError ExecContext :=
  if ¬ valid then .error .ConfigurationFailed
  else .ok { ec with state := .configured }

/-- Modelled from the spec: `load_registers(thread_handle,
instruction_pointer, stack_pointer)` — rejects with `MisalignedStack` a
stack pointer that is not a multiple of `2 * wordSize` (the platform
alignment, `sizeof(seL4_Word) * 2` in the source); on success writes
exactly two registers, instruction pointer first and stack pointer
second, as the source's `seL4_TCB_WriteRegisters(tcb_cap, 0, 0, 2, &regs)`
does. -/
def load_registers (wordSize ip sp : Nat) (ec : ExecContext) :
    Except BootError ExecContext :=
  if sp % (2 * wordSize) ≠ 0 then .error .MisalignedStack
  else .ok { ec with
    regsLoaded := true
    regs := writeRegisters 2 (mkUserContext ip sp) ec.regs }

/-- Modelled from the spec: `resume(thread_handle)` — a second call after
success fails with `AlreadyRunning`; it fails with `ResumeFailed` if the
context is not `configured` or registers were never loaded; otherwise the
context becomes `runnable`.  The source performs it as
`seL4_TCB_Resume`. -/
def resume (ec : ExecContext) : Except BootError ExecContext :=
  if ec.state = .runnable then .error .AlreadyRunning
  else if ec.state ≠ .configured ∨ ec.regsLoaded = false then
    .error .ResumeFailed
  else .ok { ec with state := .runnable }

/-- Boot info of the end-to-end scenario of spec section 8: two grants of
size classes 2^12 = 4096 and 2^16 = 65536 bytes, free slot range
[100, 110). -/
def scnInfo : BootInfo := ⟨0, 2, [12, 16], 100, 110⟩

/-- Source constant: `#define THREAD_2_STACK_SIZE 512`. -/
def THREAD_2_STACK_SIZE : Nat := 512

/-- Embedding of `thread_2_stack_top = (uintptr_t)thread_2_stack +
sizeof(thread_2_stack)` in `main.c`: `thread_2_stack` is a
`uint64_t[THREAD_2_STACK_SIZE]`, so its size is `512 * 8` bytes; `base`
is the array's address. -/
def thread_2_stack_top (base : Nat) : Nat :=
  base + THREAD_2_STACK_SIZE * 8

/-- Source constant: `stack_alignment_requirement = sizeof(seL4_Word) * 2`,
parameterised by the machine word size in bytes. -/
def stack_alignment_requirement (wordSize : Nat) : Nat :=
  wordSize * 2

/-- The condition of the `ZF_LOGF_IF` misaligned-stack check in `main.c`:
`thread_2_stack_top % stack_alignment_requirement != 0`. -/
def stackCheckFires (base wordSize : Nat) : Bool :=
  thread_2_stack_top base % stack_alignment_requirement wordSize != 0

/-- Boot info used by the counterexamples: a single untyped capability,
index 5, of size class 2^16 = 65536 bytes. -/
def cexInfo : BootInfo := ⟨5, 6, [16], 100, 110⟩

end Sel4Tutorial

namespace Sel4Tutorial

/-- Helper: when no entry of `sizes` satisfies the request, the
`get_untyped` loop runs to the end and returns `-1`. -/
theorem get_untypedGo_none (sizes : List Nat) : ∀ i e sz : Nat,
    sizes.length = e - i →
    (∀ j, j < sizes.length → ¬ sz ≤ 2 ^ sizes.getD j 0) →
    get_untypedGo i e sizes sz = -1 := by
  induction sizes with
  | nil => intro i e sz _ _; rfl
  | cons s rest ih =>
    intro i e sz hlen hnone
    have hi : i < e := by simp at hlen; omega
    have h0 : ¬ sz ≤ 2 ^ s := by
      have := hnone 0 (by simp)
      simpa using this
    have hrec := ih (i + 1) e sz (by simp at hlen ⊢; omega)
      (fun j hj => by
        have := hnone (j + 1) (by simpa using Nat.succ_lt_succ hj)
        simpa using this)
    simp [get_untypedGo, hi, h0, hrec]

/-- Helper: when `idx` is the first entry of `sizes` satisfying the
request, the `get_untyped` loop returns `i + idx`. -/
theorem get_untypedGo_first (sizes : List Nat) : ∀ i e sz idx : Nat,
    sizes.length = e - i →
    idx < sizes.length →
    sz ≤ 2 ^ sizes.getD idx 0 →
    (∀ j, j < idx → ¬ sz ≤ 2 ^ sizes.getD j 0) →
    get_untypedGo i e sizes sz = ((i + idx : Nat) : Int) := by
  induction sizes with
  | nil => intro i e sz idx _ hidx; simp at hidx
  | cons s rest ih =>
    intro i e sz idx hlen hidx hq hmin
    have hi : i < e := by simp at hlen; omega
    cases idx with
    | zero =>
      have hs : sz ≤ 2 ^ s := by simpa using hq
      simp [get_untypedGo, hi, hs]
    | succ k =>
      have h0 : ¬ sz ≤ 2 ^ s := by
        have := hmin 0 (Nat.succ_pos k)
        simpa using this
      have hrec := ih (i + 1) e sz k (by simp at hlen ⊢; omega)
        (by simpa using Nat.lt_of_succ_lt_succ hidx)
        (by simpa using hq)
        (fun j hj => by
          have := hmin (j + 1) (Nat.succ_lt_succ hj)
          simpa using this)
      have : ((i + 1) + k : Nat) = (i + (k + 1) : Nat) := by omega
      simp [get_untypedGo, hi, h0, hrec, this]

/-- Helper: the state-passing `get_untyped` loop never changes the boot
info, and its result is the pure loop's result. -/
theorem get_untypedLoop_eq (sizes : List Nat) : ∀ (st : BootInfo) (i e sz : Nat),
    get_untypedLoop st i e sizes sz = (st, get_untypedGo i e sizes sz) := by
  induction sizes with
  | nil => intro st i e sz; rfl
  | cons s rest ih =>
    intro st i e sz
    by_cases hi : i < e
    · by_cases hs : sz ≤ 2 ^ s
      · simp [get_untypedLoop, get_untypedGo, hi, hs]
      · simp [get_untypedLoop, get_untypedGo, hi, hs, ih]
    · simp [get_untypedLoop, get_untypedGo, hi]

/-- C3: for every size requirement and every well-formed boot info, the
grant search `get_untyped` returns the first capability in ascending
identifier order whose size class `2^sizeBits` is at least the
requirement, and returns the failure value `-1` when no grant
qualifies. -/
theorem get_untyped_first_fit (info : BootInfo) (sz : Nat) (hwf : info.wf) :
    ((∀ j, j < info.untypedList.length → ¬ qualifies info sz j) →
      get_untyped info sz = -1) ∧
    (∀ idx, idx < info.untypedList.length → qualifies info sz idx →
      (∀ j, j < idx → ¬ qualifies info sz j) →
      get_untyped info sz = ((info.untypedStart + idx : Nat) : Int)) := by
  constructor
  · intro hnone
    exact get_untypedGo_none info.untypedList info.untypedStart info.untypedEnd
      sz hwf (fun j hj => hnone j hj)
  · intro idx hidx hq hmin
    exact get_untypedGo_first info.untypedList info.untypedStart info.untypedEnd
      sz idx hwf hidx hq (fun j hj => hmin j hj)

/-- Witness for C3 at the scenario boot info: requirement 65536 skips the
4096-byte grant and selects capability 1; requirement 131072 fails. -/
theorem get_untyped_first_fit_witness :
    get_untyped scnInfo 65536 = ((scnInfo.untypedStart + 1 : Nat) : Int) ∧
    get_untyped scnInfo 131072 = -1 :=
  ⟨(get_untyped_first_fit scnInfo 65536 (by decide)).2 1 (by decide)
      (by decide) (by decide),
   (get_untyped_first_fit scnInfo 131072 (by decide)).1 (by decide)⟩

/-- C2: every sequence of `next_slot` calls bounded by the size of the
initial free slot range succeeds, the returned identifiers are the
strictly increasing (hence pairwise distinct) list
`start, start+1, ...`, and once the range is exhausted the next call
fails with `ExhaustedSlots` instead of returning an identifier. -/
theorem next_slot_spec (s e n : Nat) (hn : n ≤ e - s) :
    runNext n ⟨s, e⟩ = .ok (List.range' s n, ⟨s + n, e⟩) ∧
    (List.range' s n).Pairwise (· < ·) ∧
    (n = e - s → next_slot ⟨s + n, e⟩ = .error .ExhaustedSlots) := by
  refine ⟨?_, List.pairwise_lt_range' s n, ?_⟩
  · induction n generalizing s with
    | zero => simp [runNext]
    | succ k ih =>
      have hs : s < e := by omega
      have hrec := ih (s + 1) (by omega)
      have hrange : List.range' s (k + 1) = s :: List.range' (s + 1) k :=
        List.range'_succ s k 1
      have harith : s + 1 + k = s + (k + 1) := by omega
      simp [runNext, next_slot, hs, hrec, hrange, harith]
  · intro he
    have : ¬ s + n < e := by omega
    simp [next_slot, this]

/-- Witness for C2 at the scenario slot range [100, 110): all ten
allocations succeed in increasing order and the eleventh call fails. -/
theorem next_slot_spec_witness :
    runNext 10 ⟨100, 110⟩ =
      .ok ([100, 101, 102, 103, 104, 105, 106, 107, 108, 109], ⟨110, 110⟩) ∧
    next_slot ⟨110, 110⟩ = .error .ExhaustedSlots := by
  have h := next_slot_spec 100 110 10 (by decide)
  exact ⟨by simpa using h.1, by simpa using h.2.2 (by decide)⟩

/-- C9: `get_untyped` is a pure read of the boot info: the state-passing
form leaves the boot info unchanged and returns the pure function's
result, so a second consecutive call with the same arguments starts from
the identical boot info and returns the identical capability index. -/
theorem get_untyped_pure (info : BootInfo) (sz : Nat) :
    get_untypedS info sz = (info, get_untyped info sz) ∧
    get_untypedS (get_untypedS info sz).1 sz = get_untypedS info sz := by
  have h := get_untypedLoop_eq info.untypedList info info.untypedStart
    info.untypedEnd sz
  constructor
  · exact h
  · rw [show (get_untypedS info sz).1 = info from by
      rw [get_untypedS, h]]

/-- C1 counterexample: with a single 65536-byte grant (capability 5), the
first search for 4096 bytes returns capability 5, and a later search on
the post-call state returns the same capability 5 again — the consumed
grant was not retired and remains available to subsequent calls. -/
theorem grant_reuse_cex :
    (get_untypedS cexInfo 4096).2 = 5 ∧
    (get_untypedS (get_untypedS cexInfo 4096).1 4096).2 = 5 := by decide

/-- C1 (amended): a grant consumed via `get_untyped` is not retired: the
boot info is unchanged by the call, and a later search with the same size
requirement returns the very same untyped capability again.  (In `main`'s
bootstrap, distinct grants are selected only when the later size
requirement exceeds the earlier grant's size class.) -/
theorem grant_not_retired (info : BootInfo) (sz : Nat)
    (_hsucc : 0 ≤ (get_untypedS info sz).2) :
    (get_untypedS info sz).1 = info ∧
    (get_untypedS (get_untypedS info sz).1 sz).2 = (get_untypedS info sz).2 := by
  have h := get_untypedLoop_eq info.untypedList info info.untypedStart
    info.untypedEnd sz
  have h1 : (get_untypedS info sz).1 = info := by rw [get_untypedS, h]
  exact ⟨h1, by rw [h1]⟩

/-- Witness for C1 (amended) at the scenario boot info with a successful
4096-byte search. -/
theorem grant_not_retired_witness :
    (get_untypedS scnInfo 4096).1 = scnInfo ∧
    (get_untypedS (get_untypedS scnInfo 4096).1 4096).2 =
      (get_untypedS scnInfo 4096).2 :=
  grant_not_retired scnInfo 4096 (by decide)

/-- C4: the end-to-end scenario with grant size classes [4096, 65536] and
free slot range [100, 110): the thread-object request of 4096 bytes gets
slot 100 and grant capability 0; the scheduling-context request of 65536
bytes gets slot 101 and grant capability 1 (grant 0 is skipped); binding
the period 10ms, budget 10ms policy on node 0 succeeds; configure,
load_registers with a 16-multiple stack pointer, and the first resume all
succeed. -/
theorem bootstrap_scenario :
    next_slot ⟨100, 110⟩ = .ok (100, ⟨101, 110⟩) ∧
    get_untyped scnInfo 4096 = 0 ∧
    next_slot ⟨101, 110⟩ = .ok (101, ⟨102, 110⟩) ∧
    get_untyped scnInfo 65536 = 1 ∧
    bind_policy (fun n => n == 0) false 0 ⟨10000, 10000, 0⟩ = .ok () ∧
    configure true ExecContext.create = .ok ⟨.configured, false, RegFile.zero⟩ ∧
    load_registers 8 4660 4096 ⟨.configured, false, RegFile.zero⟩ =
      .ok ⟨.configured, true, ⟨4660, 4096, 0, 0, 0, 0, 0, 0, 0, 0, 0, 0, 0⟩⟩ ∧
    resume ⟨.configured, true, ⟨4660, 4096, 0, 0, 0, 0, 0, 0, 0, 0, 0, 0, 0⟩⟩ =
      .ok ⟨.runnable, true, ⟨4660, 4096, 0, 0, 0, 0, 0, 0, 0, 0, 0, 0, 0⟩⟩ :=
  ⟨rfl, by decide, rfl, by decide, rfl, rfl, rfl, rfl⟩

/-- C5: the execution-context state machine admits no skipped
transition: `resume` fails with `ResumeFailed` (not a silent no-op) when
invoked before `configure` (state still `unconfigured`) or before
`load_registers` (registers never loaded), and every `resume` after a
successful one fails with `AlreadyRunning` — so a context becomes
runnable at most once. -/
theorem resume_state_machine :
    (∀ ec : ExecContext, ec.state = .unconfigured →
      resume ec = .error .ResumeFailed) ∧
    (∀ ec : ExecContext, ec.state = .configured → ec.regsLoaded = false →
      resume ec = .error .ResumeFailed) ∧
    (∀ ec ec' : ExecContext, resume ec = .ok ec' →
      resume ec' = .error .AlreadyRunning) := by
  refine ⟨?_, ?_, ?_⟩
  · intro ec h
    simp [resume, h]
  · intro ec h hr
    simp [resume, h, hr]
  · intro ec ec' h
    by_cases h1 : ec.state = RunState.runnable
    · simp [resume, h1] at h
    · by_cases h2 : ec.state ≠ RunState.configured ∨ ec.regsLoaded = false
      · simp [resume, h1, h2] at h
      · simp [resume, h1, h2] at h
        rw [← h]
        simp [resume]

/-- Witness for C5: resume before configure fails, resume before
load_registers fails, and a second resume after a successful one fails
with AlreadyRunning. -/
theorem resume_state_machine_witness :
    resume ⟨.unconfigured, false, RegFile.zero⟩ = .error .ResumeFailed ∧
    resume ⟨.configured, false, RegFile.zero⟩ = .error .ResumeFailed ∧
    resume ⟨.runnable, true, RegFile.zero⟩ = .error .AlreadyRunning :=
  ⟨resume_state_machine.1 ⟨.unconfigured, false, RegFile.zero⟩ rfl,
   resume_state_machine.2.1 ⟨.configured, false, RegFile.zero⟩ rfl rfl,
   resume_state_machine.2.2 ⟨.configured, true, RegFile.zero⟩
     ⟨.runnable, true, RegFile.zero⟩ rfl⟩

/-- C6: given a scheduling-control authority for the node, `bind_policy`
fails with `InvalidPolicy` exactly when the policy has a non-positive
period, a non-positive budget, or a budget strictly greater than its
period; a positive policy with budget equal to period (such as
10ms/10ms) is accepted when the context is not already bound. -/
theorem bind_policy_validation (p : Policy) (control : Nat → Bool)
    (bound : Bool) (node : Nat) (hc : control node = true) :
    ((p.period ≤ 0 ∨ p.budget ≤ 0 ∨ p.budget > p.period) →
      bind_policy control bound node p = .error .InvalidPolicy) ∧
    (0 < p.period → p.budget = p.period → bound = false →
      bind_policy control bound node p = .ok ()) := by
  constructor
  · intro hbad
    simp [bind_policy, hc, hbad]
  · intro hpos heq hb
    have hgood : ¬ (p.period ≤ 0 ∨ p.budget ≤ 0 ∨ p.budget > p.period) := by
      push_neg
      omega
    simp [bind_policy, hc, hgood, hb]

/-- Witness for C6: the scenario's 10ms/10ms policy is accepted; a policy
whose budget exceeds its period is rejected with InvalidPolicy. -/
theorem bind_policy_validation_witness :
    bind_policy (fun _ => true) false 0 ⟨10000, 10000, 0⟩ = .ok () ∧
    bind_policy (fun _ => true) false 0 ⟨10000, 20000, 0⟩ =
      .error .InvalidPolicy :=
  ⟨(bind_policy_validation ⟨10000, 10000, 0⟩ (fun _ => true) false 0 rfl).2
      (by decide) rfl rfl,
   (bind_policy_validation ⟨10000, 20000, 0⟩ (fun _ => true) false 0 rfl).1
      (by decide)⟩

/-- C7: `load_registers` rejects with `MisalignedStack` every stack
pointer that is not a multiple of twice the machine word size, and
accepts every stack pointer that is such a multiple, storing it exactly
(the accepted value is written untruncated into the stack-pointer
register). -/
theorem load_registers_alignment (wordSize ip sp : Nat) (ec : ExecContext) :
    (sp % (2 * wordSize) ≠ 0 →
      load_registers wordSize ip sp ec = .error .MisalignedStack) ∧
    (sp % (2 * wordSize) = 0 →
      load_registers wordSize ip sp ec =
        .ok { ec with regsLoaded := true,
                      regs := writeRegisters 2 (mkUserContext ip sp) ec.regs } ∧
      (writeRegisters 2 (mkUserContext ip sp) ec.regs).esp = sp) := by
  constructor
  · intro hbad
    simp [load_registers, hbad]
  · intro hgood
    refine ⟨by simp [load_registers, hgood], ?_⟩
    simp [writeRegisters, mkUserContext]

/-- Witness for C7 at word size 8: stack pointer 24 is rejected, stack
pointer 32 is accepted and stored exactly. -/
theorem load_registers_alignment_witness :
    load_registers 8 0 24 ExecContext.create = .error .MisalignedStack ∧
    (writeRegisters 2 (mkUserContext 0 32) ExecContext.create.regs).esp = 32 :=
  ⟨(load_registers_alignment 8 0 24 ExecContext.create).1 (by decide),
   ((load_registers_alignment 8 0 32 ExecContext.create).2 (by decide)).2⟩

/-- C8: on a freshly created execution context (register file at its
creation default of zero), a successful `load_registers` writes exactly
the instruction-pointer and stack-pointer registers; every other register
of the resulting register file is still zero. -/
theorem load_registers_writes_two (wordSize ip sp : Nat)
    (halign : sp % (2 * wordSize) = 0) :
    load_registers wordSize ip sp ExecContext.create =
      .ok ⟨.unconfigured, true, ⟨ip, sp, 0, 0, 0, 0, 0, 0, 0, 0, 0, 0, 0⟩⟩ := by
  simp [load_registers, halign, ExecContext.create, writeRegisters,
    mkUserContext, RegFile.zero]

/-- Witness for C8 at word size 8, instruction pointer 4660, stack
pointer 4096. -/
theorem load_registers_writes_two_witness :
    load_registers 8 4660 4096 ExecContext.create =
      .ok ⟨.unconfigured, true, ⟨4660, 4096, 0, 0, 0, 0, 0, 0, 0, 0, 0, 0, 0⟩⟩ :=
  load_registers_writes_two 8 4660 4096 (by decide)

/-- C10 counterexample: a `uint64_t` array is only guaranteed 8-byte
alignment, and 8-byte word size is within the claim's "at most 8 bytes";
at base address 8 (8-byte aligned) and word size 8 the stack top is
8 + 4096 = 4104, which is not a multiple of 16, so the misaligned-stack
check fires — the branch is reachable. -/
theorem stack_check_cex :
    8 % 8 = 0 ∧ stackCheckFires 8 8 = true := by decide

/-- C10 (amended): the misaligned-stack check never fires when twice the
word size divides the 8-byte alignment guarantee of the `uint64_t` stack
array (word sizes 1, 2 and 4 — in particular the 4-byte words of the x86
register layout in the source); for 8-byte words it additionally requires
the array base to be 16-byte aligned, which 8-byte alignment alone does
not guarantee. -/
theorem stack_check_unreachable (base w : Nat) :
    (base % 8 = 0 → w * 2 ∣ 8 → stackCheckFires base w = false) ∧
    (base % 16 = 0 → stackCheckFires base 8 = false) := by
  constructor
  · intro h8 hdvd
    have hle : w * 2 ≤ 8 := Nat.le_of_dvd (by norm_num) hdvd
    have hw1 : 1 ≤ w := by
      rcases Nat.eq_zero_or_pos w with h | h
      · subst h; simp at hdvd
      · exact h
    have hw4 : w ≤ 4 := by omega
    interval_cases w <;>
      simp_all [stackCheckFires, thread_2_stack_top,
        stack_alignment_requirement, THREAD_2_STACK_SIZE] <;>
      omega
  · intro h16
    simp [stackCheckFires, thread_2_stack_top,
      stack_alignment_requirement, THREAD_2_STACK_SIZE]
    omega

/-- Witness for C10 (amended): base 8 with 4-byte words passes the check;
base 16 with 8-byte words passes the check. -/
theorem stack_check_unreachable_witness :
    stackCheckFires 8 4 = false ∧ stackCheckFires 16 8 = false :=
  ⟨(stack_check_unreachable 8 4).1 (by decide) (by decide),
   (stack_check_unreachable 16 8).2 (by decide)⟩

end Sel4Tutorial
